import Mathlib

set_option linter.unusedVariables false

/-!
Formal model of the visual-mcp server (src/visual_mcp/server.py).

The Python module is shallowly embedded: pure helpers become Lean functions,
the retry loop of call_glm_vision_api becomes a structurally recursive function
that also records the attempts performed and the backoff sleeps requested, the
filesystem and the HTTP transport become explicit parameters, and raised Python
exceptions become an explicit error type carried in Except / in the recorded
call result.  Byte values are modelled as natural numbers below 256.
-/

namespace VisualMcp

/-- Python exception values raised by the server code; str(e) is the carried
message, which is what the orchestrator interpolates into its failure string. -/
inductive PyErr where
  | valueError (msg : String)
  | runtimeError (msg : String)
  | indexError (msg : String)
  deriving DecidableEq, Repr

deriving instance DecidableEq for Except

/-- Python str(e) for the exceptions above. -/
def PyErr.msg : PyErr → String
  | .valueError m => m
  | .runtimeError m => m
  | .indexError m => m

/-! ## Base64 (Python base64.b64encode / b64decode with validate=True) -/

/-- The 64-character standard base64 alphabet, in table order, as used by the
Python base64 module. -/
def b64Alphabet : List Char :=
  "ABCDEFGHIJKLMNOPQRSTUVWXYZabcdefghijklmnopqrstuvwxyz0123456789+/".data

/-- The character encoding a sextet value (meaningful for v < 64). -/
def sextetChar (v : Nat) : Char := b64Alphabet.getD v '?'

/-- The sextet value of an alphabet character, none for a non-alphabet one. -/
def sextetVal (c : Char) : Option Nat := b64Alphabet.findIdx? (fun d => d = c)

/-- Membership in the 64-character alphabet (the padding '=' is not in it). -/
def isB64Char (c : Char) : Bool := b64Alphabet.contains c

/-- Model of Python base64.b64encode on a list of byte values (each < 256):
three bytes become four alphabet characters, a trailing group of one or two
bytes is padded with two or one '='. -/
def b64encodeL : List Nat → List Char
  | [] => []
  | [a] => [sextetChar (a / 4), sextetChar (a % 4 * 16), '=', '=']
  | [a, b] =>
      [sextetChar (a / 4), sextetChar (a % 4 * 16 + b / 16), sextetChar (b % 16 * 4), '=']
  | a :: b :: c :: rest =>
      sextetChar (a / 4) :: sextetChar (a % 4 * 16 + b / 16) ::
        sextetChar (b % 16 * 4 + c / 64) :: sextetChar (c % 64) :: b64encodeL rest

/-- Decode a list of sextet values into bytes, as CPython binascii.a2b_base64
does for the data characters of a well-padded base64 string: a trailing group
of two sextets yields one byte, three yield two bytes, and a single leftover
sextet is invalid. -/
def decodeSextets : List Nat → Option (List Nat)
  | [] => some []
  | [_] => none
  | [a, b] => some [a * 4 + b / 16]
  | [a, b, c] => some [a * 4 + b / 16, b % 16 * 16 + c / 4]
  | a :: b :: c :: d :: rest =>
      (decodeSextets rest).map fun tl =>
        (a * 4 + b / 16) :: (b % 16 * 16 + c / 4) :: (c % 4 * 64 + d) :: tl

/-- The sextet values of the base64 encoding of a byte list: the data
characters of b64encodeL before its padding. -/
def sextetsOf : List Nat → List Nat
  | [] => []
  | [a] => [a / 4, a % 4 * 16]
  | [a, b] => [a / 4, a % 4 * 16 + b / 16, b % 16 * 4]
  | a :: b :: c :: rest =>
      a / 4 :: (a % 4 * 16 + b / 16) :: (b % 16 * 4 + c / 64) :: c % 64 :: sextetsOf rest

/-- The padding characters of the base64 encoding of a byte list. -/
def padOf : List Nat → List Char
  | [] => []
  | [_] => ['=', '=']
  | [_, _] => ['=']
  | _ :: _ :: _ :: rest => padOf rest

/-- The sextet values of a character list, none as soon as one character is
not in the alphabet. -/
def sextetValsOf : List Char → Option (List Nat)
  | [] => some []
  | c :: cs =>
      match sextetVal c, sextetValsOf cs with
      | some v, some vs => some (v :: vs)
      | _, _ => none

/-- The validate=True shape check of Python base64.b64decode: the whole string
must consist of alphabet characters followed by at most two '='. -/
def b64validShape (t : List Char) : Bool :=
  let digits := t.takeWhile isB64Char
  let rest := t.drop digits.length
  rest.all (fun c => c = '=') && decide (rest.length ≤ 2)

/-- Model of Python base64.b64decode(s, validate=True): reject any string whose
shape is not alphabet-characters followed by at most two '=' (the validation
regex), reject a total length that is not a multiple of four (binascii's
incorrect-padding error), then decode the data sextets. -/
def b64decodeL (t : List Char) : Option (List Nat) :=
  if b64validShape t then
    if t.length % 4 = 0 then
      match sextetValsOf (t.takeWhile isB64Char) with
      | some vals => decodeSextets vals
      | none => none
    else none
  else none

/-- String-level decode, for stating round-trip facts. -/
def b64decode (s : String) : Option (List Nat) := b64decodeL s.data

/-- The padding step of server.py is_valid_base64 (lines 100-103): append '='
until the length is a multiple of four. -/
def b64padL (s : List Char) : List Char :=
  let padding_needed := s.length % 4
  if padding_needed = 0 then s
  else s ++ List.replicate (4 - padding_needed) '='

/-- server.py is_valid_base64: pad to a multiple of four with '=', attempt a
strict decode (base64.b64decode with validate=True); any failure yields false. -/
def is_valid_base64 (base64_string : String) : Bool :=
  (b64decodeL (b64padL base64_string.data)).isSome

/-! ## Format validation (server.py validate_image_format) -/

/-- The allow-list of server.py validate_image_format (line 117). -/
def supported_formats : List String := ["image/jpeg", "image/jpg", "image/png"]

/-- Model of Python str.lower restricted to ASCII case folding (String.toLower
on each character; defined on the character list so that it computes by
kernel reduction). -/
def pyLower (s : String) : String := String.mk (s.data.map Char.toLower)

/-- server.py validate_image_format: lower-case the MIME type; if it is not in
the supported allow-list, return "image/jpeg", else return it unchanged. -/
def validate_image_format (mime_type : String) : String :=
  let m := pyLower mime_type
  if supported_formats.contains m then m else "image/jpeg"

/-! ## Filesystem and mimetypes models -/

/-- The outcome of opening and reading a file, as observed by
encode_file_to_base64 through its except clauses. -/
inductive FileResult where
  | content (bytes : List Nat)
  | fileNotFoundError
  | permissionError
  | otherError (msg : String)
  deriving DecidableEq, Repr

/-- The filesystem as the server sees it: os.path.exists and open(...).read(). -/
structure FS where
  pathExists : String → Bool
  readFile : String → FileResult

/-- The lower-cased extension of a path (the part after the last dot), none
when the name contains no dot. -/
def fileExt (path : String) : Option String :=
  if path.data.contains '.' then
    some (String.mk (((path.data.reverse.takeWhile (fun c => c ≠ '.')).reverse).map
      Char.toLower))
  else none

/-- Modelled from the Python standard library: mimetypes.guess_type maps a file
name to a MIME type by its extension; the table here is its restriction to the
extensions exercised in this development. -/
def guess_type (path : String) : Option String :=
  (fileExt path).bind fun ext =>
    [("jpg", "image/jpeg"), ("jpeg", "image/jpeg"), ("png", "image/png"),
     ("gif", "image/gif"), ("webp", "image/webp"), ("bmp", "image/bmp"),
     ("tiff", "image/tiff"), ("txt", "text/plain"), ("pdf", "application/pdf")].lookup ext

/-- Python str.startswith. -/
def pyStartswith (s pre : String) : Bool := pre.data.isPrefixOf s.data

/-- Split at the first occurrence of a separator character: Python
s.split(sep, 1) yields a two-element list when sep occurs in s (this function
returns some (before, after)) and the one-element list [s] when it does not
(this function returns none). -/
def splitOnceL (sep : Char) : List Char → Option (List Char × List Char)
  | [] => none
  | c :: cs =>
      if c = sep then some ([], cs)
      else (splitOnceL sep cs).map fun p => (c :: p.1, p.2)

/-- String-level wrapper of splitOnceL. -/
def splitOnce (sep : Char) (s : String) : Option (String × String) :=
  (splitOnceL sep s.data).map fun p => (String.mk p.1, String.mk p.2)

/-- server.py encode_file_to_base64: guess the MIME type from the extension,
defaulting to "image/jpeg" when the guess fails or is not an image type, then
read and base64-encode the file bytes, converting the I/O failures into
ValueError with the messages of lines 89-94. -/
def encode_file_to_base64 (fs : FS) (file_path : String) :
    Except PyErr (String × String) :=
  let mime_type :=
    match guess_type file_path with
    | none => "image/jpeg"
    | some m => if pyStartswith m "image/" then m else "image/jpeg"
  match fs.readFile file_path with
  | .content bytes => .ok (String.mk (b64encodeL bytes), mime_type)
  | .fileNotFoundError => .error (.valueError ("File not found: " ++ file_path))
  | .permissionError =>
      .error (.valueError ("Permission denied when reading file: " ++ file_path))
  | .otherError m =>
      .error (.valueError ("Failed to encode file " ++ file_path ++ ": " ++ m))

/-- server.py prepare_image_for_api: an existing path is read and encoded; an
input starting with "data:image" is split at its first comma into header and
payload, the MIME type being the part of the header after the first ':'
(stopping at the first ';'); on an unpacking or indexing failure the except
branch re-splits the whole input at the first comma and defaults the type to
"image/jpeg" — when there is no comma at all, that fallback indexing itself
raises IndexError, which nothing in the function catches; any other input is
returned as-is with type "image/jpeg". -/
def prepare_image_for_api (fs : FS) (image_input : String) :
    Except PyErr (String × String) :=
  if fs.pathExists image_input then
    encode_file_to_base64 fs image_input
  else if pyStartswith image_input "data:image" then
    match splitOnce ',' image_input with
    | some (header, data) =>
        match splitOnce ':' (match splitOnce ';' header with
                             | some p => p.1
                             | none => header) with
        | some p => .ok (data, p.2)
        | none =>
            match splitOnce ',' image_input with
            | some q => .ok (q.2, "image/jpeg")
            | none => .error (.indexError "list index out of range")
    | none =>
        match splitOnce ',' image_input with
        | some q => .ok (q.2, "image/jpeg")
        | none => .error (.indexError "list index out of range")
  else
    .ok (image_input, "image/jpeg")

/-! ## Configuration (server.py lines 31-34) -/

/-- The process-wide configuration globals of server.py. -/
structure Config where
  GLM_API_BASE : String
  GLM_API_KEY : Option String
  GLM_MODEL_NAME : String
  deriving DecidableEq, Repr

/-- The module-level environment reads: os.getenv with the source defaults. -/
def readConfig (env : String → Option String) : Config where
  GLM_API_BASE := (env "GLM_API_BASE").getD "https://nano-gpt.com/api/v1"
  GLM_API_KEY := env "GLM_API_KEY"
  GLM_MODEL_NAME := (env "GLM_MODEL_NAME").getD "zai-org/GLM-4.5V-FP8"

/-- Python truthiness of an optional string (None and "" are falsy). -/
def pyTruthyOpt : Option String → Bool
  | none => false
  | some s => !s.isEmpty

/-- Python truthiness of a string ("" is falsy). -/
def pyTruthyStr (s : String) : Bool := !s.isEmpty

/-- The state of the imported server module: its configuration globals,
assigned exactly once at import time. -/
structure ModuleState where
  cfg : Config

/-- Importing server.py snapshots the environment of that moment into the
module globals; the functions of the module read only these globals. -/
def loadModule (env : String → Option String) : ModuleState := ⟨readConfig env⟩

/-! ## Vision API client (server.py call_glm_vision_api) -/

/-- The observable outcome of one HTTP attempt: a 2xx response whose body
yielded the first choice's message content; a non-2xx status raised by
raise_for_status, carrying the server-supplied error message when the error
body parsed (none when response.json() failed, in which case the raw body text
is used); a timeout; a transport error; or any other exception, e.g. a 2xx
response whose body failed to parse. -/
inductive AttemptOutcome where
  | success (content : String)
  | httpStatus (code : Nat) (detail : Option String) (text : String)
  | timeout (msg : String)
  | networkError (msg : String)
  | otherExc (msg : String)

/-- The error message built for an HTTPStatusError (lines 188-196):
"GLM API error: <status>" followed by " - <server message> error" when the
error body parsed, or by " - <raw body text>" when it did not. -/
def statusErrMsg (code : Nat) (detail : Option String) (text : String) : String :=
  "GLM API error: " ++ toString code ++
    (match detail with
     | some m => " - " ++ m ++ " error"
     | none => " - " ++ text)

/-- What one call of call_glm_vision_api did: its result (the returned content
or the raised exception), how many HTTP attempts it made, and the backoff
sleeps it performed, in order. -/
structure CallTrace where
  result : Except PyErr String
  attempts : Nat
  sleeps : List ℚ
  deriving DecidableEq, Repr

/-- The retry loop of call_glm_vision_api (lines 174-221).  The first argument
is the number of loop iterations still allowed (initially max_retries, so the
iteration with counter value attempt has remaining = max_retries - attempt - 1
after the pattern match).  A success returns at once; a 401/403/429 status
stores the error and breaks (no sleep); every other failure stores the error
and, unless this was the last allowed iteration (Python: attempt <
max_retries - 1), sleeps retry_delay * 2 ^ attempt; an exhausted loop raises
the stored error, or a fresh RuntimeError when no iteration ever ran. -/
def glmLoop (transport : Nat → AttemptOutcome) (retry_delay : ℚ) :
    Nat → Nat → Option PyErr → CallTrace
  | 0, attempt, last =>
      { result := .error (match last with
          | some e => e
          | none => .runtimeError "Failed to call GLM API after maximum retries"),
        attempts := attempt,
        sleeps := [] }
  | remaining + 1, attempt, _ =>
      let cont := fun (e : PyErr) =>
        let rest := glmLoop transport retry_delay remaining (attempt + 1) (some e)
        { rest with
            sleeps := (if remaining ≠ 0 then [retry_delay * 2 ^ attempt] else [])
              ++ rest.sleeps }
      match transport attempt with
      | .success content =>
          { result := .ok content, attempts := attempt + 1, sleeps := [] }
      | .httpStatus code detail text =>
          let e := PyErr.runtimeError (statusErrMsg code detail text)
          if code = 401 ∨ code = 403 ∨ code = 429 then
            { result := .error e, attempts := attempt + 1, sleeps := [] }
          else cont e
      | .timeout m => cont (.runtimeError ("GLM API timeout: " ++ m))
      | .networkError m => cont (.runtimeError ("GLM API network error: " ++ m))
      | .otherExc m => cont (.runtimeError ("Failed to call GLM API: " ++ m))

/-- server.py call_glm_vision_api, with the module configuration and the HTTP
transport explicit.  The guard clauses (lines 138-146) raise ValueError before
any attempt; line 149 normalizes the MIME type, which (like the payload built
on lines 151-172) only feeds the request sent by the transport and has no
effect on the recorded trace; then the loop runs over range(max_retries) — a
Python int, so a non-positive max_retries yields zero iterations. -/
def call_glm_vision_api (cfg : Config) (transport : Nat → AttemptOutcome)
    (image_base64 : String) (prompt : String) (mime_type : String)
    (max_tokens : Int) (max_retries : Int) (retry_delay : ℚ) : CallTrace :=
  if !pyTruthyOpt cfg.GLM_API_KEY then
    { result := .error (.valueError "GLM_API_KEY environment variable not set"),
      attempts := 0, sleeps := [] }
  else if !pyTruthyStr cfg.GLM_API_BASE then
    { result := .error (.valueError "GLM_API_BASE environment variable not set"),
      attempts := 0, sleeps := [] }
  else if !is_valid_base64 image_base64 then
    { result := .error (.valueError "Invalid base64 image data"),
      attempts := 0, sleeps := [] }
  else
    glmLoop transport retry_delay max_retries.toNat 0 none

/-! ## Orchestrator (server.py analyze_image_with_context) -/

/-- A notification emitted over the optional MCP context. -/
inductive Notif where
  | info (msg : String)
  | error (msg : String)
  deriving DecidableEq, Repr

/-- The augmented prompt of analyze_image_with_context (lines 260-276): the
f-string with the caller's user_context spliced in verbatim. -/
def enhanced_prompt (user_context : String) : String :=
  "\nYou are a comprehensive visual analysis assistant. The user has provided\n        an image and specific context about what they need.\n\nUSER CONTEXT: "
  ++ user_context ++
  "\n\nBased on this context, provide the most appropriate analysis which may include:\n- Detailed description of visual elements\n- Text extraction and transcription (if text is present)\n- Diagram/technical analysis (if it\x27s a diagram, chart, or technical drawing)\n- Summary of key information\n- Identification of issues, patterns, or insights\n- Step-by-step explanations when appropriate\n\nAdapt your response style and focus based on what the user is asking for.\nBe thorough but concise.\n"

/-- server.py analyze_image_with_context, the MCP tool.  st holds the module
globals, fs the filesystem, transport the HTTP behaviour, ctx whether a
context (notification sink) was supplied.  The whole body sits in a
try/except, so every exception becomes the uniform failure string; the client
is invoked with the defaults max_retries=5 and retry_delay=2.0 of its
signature.  Returns the string handed back to the caller and the notifications
emitted. -/
def analyze_image_with_context (st : ModuleState) (fs : FS)
    (transport : Nat → AttemptOutcome) (image_data : String)
    (user_context : String) (max_tokens : Int) (ctx : Bool) :
    String × List Notif :=
  let start := if ctx then [Notif.info "Starting image analysis with context..."] else []
  match prepare_image_for_api fs image_data with
  | .error e =>
      let error_msg := "Image analysis failed: " ++ e.msg
      (error_msg, start ++ (if ctx then [Notif.error error_msg] else []))
  | .ok (image_base64, mime_type) =>
      match (call_glm_vision_api st.cfg transport image_base64
              (enhanced_prompt user_context) mime_type max_tokens 5 2).result with
      | .ok result =>
          (result,
           start ++ (if ctx then [Notif.info "Image analysis completed successfully"] else []))
      | .error e =>
          let error_msg := "Image analysis failed: " ++ e.msg
          (error_msg, start ++ (if ctx then [Notif.error error_msg] else []))

/-- A client call performed while the process environment holds envNow: the
body of call_glm_vision_api consults only the module globals of st (lines
138-142 read GLM_API_KEY and GLM_API_BASE, the globals assigned at import on
lines 31-34); no part of it calls os.getenv, so envNow is unused. -/
def callAtTime (st : ModuleState) (envNow : String → Option String)
    (transport : Nat → AttemptOutcome) (image_base64 prompt mime_type : String)
    (max_tokens max_retries : Int) (retry_delay : ℚ) : CallTrace :=
  call_glm_vision_api st.cfg transport image_base64 prompt mime_type max_tokens
    max_retries retry_delay

/-! ## Lemmas about the client guards and the retry loop -/

/-- When the key is truthy, the base truthy and the base64 valid, the guard
clauses pass and the call is exactly the retry loop. -/
theorem call_glm_vision_api_guards_ok (cfg : Config) (transport : Nat → AttemptOutcome)
    (image_base64 prompt mime_type : String) (max_tokens max_retries : Int)
    (retry_delay : ℚ)
    (hkey : pyTruthyOpt cfg.GLM_API_KEY = true)
    (hbase : pyTruthyStr cfg.GLM_API_BASE = true)
    (hb64 : is_valid_base64 image_base64 = true) :
    call_glm_vision_api cfg transport image_base64 prompt mime_type max_tokens
        max_retries retry_delay
      = glmLoop transport retry_delay max_retries.toNat 0 none := by
  simp [call_glm_vision_api, hkey, hbase, hb64]

/-- Shifting the attempt counter by one step aligns the backoff delays. -/
theorem sleepsShift (d : ℚ) (attempt r : Nat) :
    d * 2 ^ attempt :: (List.range r).map (fun i => d * 2 ^ (attempt + 1 + i))
      = (List.range (r + 1)).map fun i => d * 2 ^ (attempt + i) := by
  rw [List.range_succ_eq_map, List.map_cons, List.map_map]
  have h2 : (List.range r).map (fun i => d * 2 ^ (attempt + 1 + i))
      = (List.range r).map ((fun i => d * 2 ^ (attempt + i)) ∘ Nat.succ) := by
    refine List.map_congr_left ?_
    intro i _
    simp only [Function.comp_apply]
    have e2 : attempt + 1 + i = attempt + Nat.succ i := by omega
    rw [e2]
  show d * 2 ^ attempt :: _ = d * 2 ^ (attempt + 0) :: _
  rw [Nat.add_zero]
  exact congrArg (List.cons _) h2

/-- When every attempt fails with a retryable HTTP status, the loop runs all
its remaining iterations, sleeps between consecutive ones with exponentially
growing delays, and ends with the most recently captured error. -/
theorem glmLoop_allFail (transport : Nat → AttemptOutcome) (d : ℚ)
    (code : Nat → Nat) (detail : Nat → Option String) (text : Nat → String)
    (htr : ∀ i, transport i = .httpStatus (code i) (detail i) (text i))
    (hcode : ∀ i, ¬(code i = 401 ∨ code i = 403 ∨ code i = 429)) :
    ∀ (remaining attempt : Nat) (last : Option PyErr), 0 < remaining →
      glmLoop transport d remaining attempt last
        = ⟨.error (.runtimeError (statusErrMsg (code (attempt + remaining - 1))
              (detail (attempt + remaining - 1)) (text (attempt + remaining - 1)))),
           attempt + remaining,
           (List.range (remaining - 1)).map fun i => d * 2 ^ (attempt + i)⟩ := by
  intro remaining
  induction remaining with
  | zero => intro _ _ h; exact absurd h (lt_irrefl 0)
  | succ r ih =>
      intro attempt last _
      simp only [glmLoop]
      rw [htr attempt]
      simp only
      rw [if_neg (hcode attempt)]
      cases r with
      | zero =>
          simp only [glmLoop, ne_eq, not_true_eq_false, if_false, List.nil_append]
          simp [List.range_zero]
      | succ r' =>
          rw [ih (attempt + 1) _ (Nat.succ_pos r')]
          simp only [CallTrace.mk.injEq]
          refine ⟨?_, by omega, ?_⟩
          · have e1 : attempt + 1 + (r' + 1) - 1 = attempt + (r' + 1 + 1) - 1 := by omega
            rw [e1]
          · simp only [Nat.add_sub_cancel]
            rw [if_pos (Nat.succ_ne_zero r'), List.singleton_append]
            exact sleepsShift d attempt r'

/-- String append concatenates the character lists. -/
theorem strData_append (a b : String) : (a ++ b).data = a.data ++ b.data := rfl

/-- Every status error message contains the marker "GLM API error". -/
theorem statusErrMsg_hasMarker (code : Nat) (detail : Option String) (text : String) :
    "GLM API error".data <:+: (statusErrMsg code detail text).data := by
  refine ⟨[], (": " ++ toString code ++ (match detail with
      | some m => " - " ++ m ++ " error"
      | none => " - " ++ text)).data, ?_⟩
  rw [List.nil_append, ← strData_append]
  show ("GLM API error" ++ (": " ++ toString code ++ _)).data = _
  unfold statusErrMsg
  congr 1

/-- glmLoop_allFail specialised to a loop started at attempt 0, with the
offsets normalised away. -/
theorem glmLoop_allFail_zero (transport : Nat → AttemptOutcome) (d : ℚ)
    (code : Nat → Nat) (detail : Nat → Option String) (text : Nat → String)
    (htr : ∀ i, transport i = .httpStatus (code i) (detail i) (text i))
    (hcode : ∀ i, ¬(code i = 401 ∨ code i = 403 ∨ code i = 429))
    (n : Nat) (hn : 0 < n) :
    glmLoop transport d n 0 none
      = ⟨.error (.runtimeError (statusErrMsg (code (n - 1)) (detail (n - 1))
            (text (n - 1)))),
         n, (List.range (n - 1)).map fun i => d * 2 ^ i⟩ := by
  rw [glmLoop_allFail transport d code detail text htr hcode n 0 none hn]
  simp only [Nat.zero_add]

/-! ## C2: exhaustion of retries on persistent retryable failures -/

/-- C2 (confirmed): with the preconditions passing, for every max_retries ≥ 1
and positive retry_delay, when every HTTP attempt fails with a retryable
status error, call_glm_vision_api performs exactly max_retries attempts,
sleeps retry_delay * 2 ^ attemptIndex between consecutive attempts
(attemptIndex starting at 0) and not after the last one, the delays are
strictly increasing, and it raises the most recently captured error, whose
message contains "GLM API error". -/
theorem call_glm_all_retryable_failures
    (cfg : Config) (transport : Nat → AttemptOutcome)
    (image_base64 prompt mime_type : String) (max_tokens max_retries : Int)
    (retry_delay : ℚ)
    (code : Nat → Nat) (detail : Nat → Option String) (text : Nat → String)
    (hkey : pyTruthyOpt cfg.GLM_API_KEY = true)
    (hbase : pyTruthyStr cfg.GLM_API_BASE = true)
    (hb64 : is_valid_base64 image_base64 = true)
    (hmr : 1 ≤ max_retries) (hd : 0 < retry_delay)
    (htr : ∀ i, transport i = .httpStatus (code i) (detail i) (text i))
    (hcode : ∀ i, ¬(code i = 401 ∨ code i = 403 ∨ code i = 429)) :
    (call_glm_vision_api cfg transport image_base64 prompt mime_type max_tokens
        max_retries retry_delay).attempts = max_retries.toNat
    ∧ (call_glm_vision_api cfg transport image_base64 prompt mime_type max_tokens
        max_retries retry_delay).sleeps
        = (List.range (max_retries.toNat - 1)).map (fun i => retry_delay * 2 ^ i)
    ∧ (call_glm_vision_api cfg transport image_base64 prompt mime_type max_tokens
        max_retries retry_delay).sleeps.Pairwise (· < ·)
    ∧ (call_glm_vision_api cfg transport image_base64 prompt mime_type max_tokens
        max_retries retry_delay).result
        = .error (.runtimeError (statusErrMsg (code (max_retries.toNat - 1))
            (detail (max_retries.toNat - 1)) (text (max_retries.toNat - 1))))
    ∧ "GLM API error".data <:+: (statusErrMsg (code (max_retries.toNat - 1))
        (detail (max_retries.toNat - 1)) (text (max_retries.toNat - 1))).data := by
  have hguards := call_glm_vision_api_guards_ok cfg transport image_base64 prompt
    mime_type max_tokens max_retries retry_delay hkey hbase hb64
  have hpos : 0 < max_retries.toNat := by omega
  have hloop := glmLoop_allFail_zero transport retry_delay code detail text htr hcode
    max_retries.toNat hpos
  rw [hguards, hloop]
  refine ⟨rfl, rfl, ?_, rfl, statusErrMsg_hasMarker _ _ _⟩
  exact (List.pairwise_map).2 ((List.pairwise_lt_range _).imp
    fun hab => mul_lt_mul_of_pos_left (pow_lt_pow_right₀ one_lt_two hab) hd)

/-- C2 witness: three attempts against a transport that always answers with
status 500, at retry_delay 2. -/
theorem call_glm_all_retryable_failures_witness :
    (call_glm_vision_api ⟨"https://nano-gpt.com/api/v1", some "k", "m"⟩
        (fun _ => .httpStatus 500 (some "Internal") "body") "QUJD" "p" "image/png"
        10 3 2).attempts = 3
    ∧ (call_glm_vision_api ⟨"https://nano-gpt.com/api/v1", some "k", "m"⟩
        (fun _ => .httpStatus 500 (some "Internal") "body") "QUJD" "p" "image/png"
        10 3 2).sleeps = (List.range 2).map (fun i => (2 : ℚ) * 2 ^ i)
    ∧ (call_glm_vision_api ⟨"https://nano-gpt.com/api/v1", some "k", "m"⟩
        (fun _ => .httpStatus 500 (some "Internal") "body") "QUJD" "p" "image/png"
        10 3 2).sleeps.Pairwise (· < ·)
    ∧ (call_glm_vision_api ⟨"https://nano-gpt.com/api/v1", some "k", "m"⟩
        (fun _ => .httpStatus 500 (some "Internal") "body") "QUJD" "p" "image/png"
        10 3 2).result
        = .error (.runtimeError (statusErrMsg 500 (some "Internal") "body"))
    ∧ "GLM API error".data <:+: (statusErrMsg 500 (some "Internal") "body").data :=
  call_glm_all_retryable_failures _ _ _ _ _ _ _ _
    (fun _ => 500) (fun _ => some "Internal") (fun _ => "body")
    (by decide) (by decide) (by decide) (by decide) (by norm_num)
    (fun _ => rfl)
    (fun _ => (by decide : ¬((500 : Nat) = 401 ∨ (500 : Nat) = 403 ∨ (500 : Nat) = 429)))

/-! ## C3: fatal status codes stop after one attempt -/

/-- C3 (confirmed): with the preconditions passing and at least one allowed
attempt, a first attempt failing with status 401, 403 or 429 ends the call at
exactly one attempt, with no backoff sleep, raising the error built from that
response. -/
theorem call_glm_fatal_status_first_attempt
    (cfg : Config) (transport : Nat → AttemptOutcome)
    (image_base64 prompt mime_type : String) (max_tokens max_retries : Int)
    (retry_delay : ℚ) (code : Nat) (detail : Option String) (text : String)
    (hkey : pyTruthyOpt cfg.GLM_API_KEY = true)
    (hbase : pyTruthyStr cfg.GLM_API_BASE = true)
    (hb64 : is_valid_base64 image_base64 = true)
    (hmr : 1 ≤ max_retries)
    (h0 : transport 0 = .httpStatus code detail text)
    (hcode : code = 401 ∨ code = 403 ∨ code = 429) :
    call_glm_vision_api cfg transport image_base64 prompt mime_type max_tokens
        max_retries retry_delay
      = ⟨.error (.runtimeError (statusErrMsg code detail text)), 1, []⟩ := by
  rw [call_glm_vision_api_guards_ok cfg transport image_base64 prompt mime_type
    max_tokens max_retries retry_delay hkey hbase hb64]
  obtain ⟨r, hr⟩ : ∃ r, max_retries.toNat = r + 1 := ⟨max_retries.toNat - 1, by omega⟩
  rw [hr]
  simp only [glmLoop, h0]
  rw [if_pos hcode]

/-- C3 witness: a 401 answer on the first attempt. -/
theorem call_glm_fatal_status_first_attempt_witness :
    call_glm_vision_api ⟨"https://nano-gpt.com/api/v1", some "k", "m"⟩
        (fun _ => .httpStatus 401 none "unauthorized") "QUJD" "p" "image/png" 10 5 2
      = ⟨.error (.runtimeError (statusErrMsg 401 none "unauthorized")), 1, []⟩ :=
  call_glm_fatal_status_first_attempt _ _ _ _ _ _ _ _ 401 none "unauthorized"
    (by decide) (by decide) (by decide) (by decide) rfl (Or.inl rfl)

/-! ## C4: precondition failures raise ValueError before any attempt -/

/-- C4 (confirmed): a missing API key, or an image string that is not valid
base64, makes call_glm_vision_api raise a ValueError with zero HTTP attempts
and zero sleeps, whatever the remaining arguments. -/
theorem call_glm_precondition_value_error
    (cfg : Config) (transport : Nat → AttemptOutcome)
    (image_base64 prompt mime_type : String) (max_tokens max_retries : Int)
    (retry_delay : ℚ)
    (h : cfg.GLM_API_KEY = none ∨ is_valid_base64 image_base64 = false) :
    ∃ m, call_glm_vision_api cfg transport image_base64 prompt mime_type max_tokens
        max_retries retry_delay
      = ⟨.error (.valueError m), 0, []⟩ := by
  unfold call_glm_vision_api
  rcases h with h | h
  · exact ⟨"GLM_API_KEY environment variable not set", by simp [pyTruthyOpt, h]⟩
  · cases hkv : pyTruthyOpt cfg.GLM_API_KEY with
    | false => exact ⟨"GLM_API_KEY environment variable not set", by simp [hkv]⟩
    | true =>
        cases hbv : pyTruthyStr cfg.GLM_API_BASE with
        | false => exact ⟨"GLM_API_BASE environment variable not set", by simp [hkv, hbv]⟩
        | true => exact ⟨"Invalid base64 image data", by simp [hkv, hbv, h]⟩

/-- C4 witness: no API key in the configuration. -/
theorem call_glm_precondition_value_error_witness :
    ∃ m, call_glm_vision_api ⟨"https://nano-gpt.com/api/v1", none, "zai-org/GLM-4.5V-FP8"⟩
        (fun _ => .success "ok") "QUJD" "p" "image/png" 10 5 2
      = ⟨.error (.valueError m), 0, []⟩ :=
  call_glm_precondition_value_error _ _ _ _ _ _ _ _ (Or.inl rfl)

/-! ## C10: non-positive max_retries -/

/-- C10 (confirmed): with the preconditions passing but max_retries ≤ 0, the
loop body never runs — no attempt, no sleep — and a RuntimeError with the
fixed maximum-retries message is raised instead of any captured error. -/
theorem call_glm_nonpositive_max_retries
    (cfg : Config) (transport : Nat → AttemptOutcome)
    (image_base64 prompt mime_type : String) (max_tokens max_retries : Int)
    (retry_delay : ℚ)
    (hkey : pyTruthyOpt cfg.GLM_API_KEY = true)
    (hbase : pyTruthyStr cfg.GLM_API_BASE = true)
    (hb64 : is_valid_base64 image_base64 = true)
    (hmr : max_retries ≤ 0) :
    call_glm_vision_api cfg transport image_base64 prompt mime_type max_tokens
        max_retries retry_delay
      = ⟨.error (.runtimeError "Failed to call GLM API after maximum retries"), 0, []⟩ := by
  rw [call_glm_vision_api_guards_ok cfg transport image_base64 prompt mime_type
    max_tokens max_retries retry_delay hkey hbase hb64]
  have h0 : max_retries.toNat = 0 := by omega
  rw [h0]
  rfl

/-- C10 witness: max_retries = 0 with a transport that would succeed. -/
theorem call_glm_nonpositive_max_retries_witness :
    call_glm_vision_api ⟨"https://nano-gpt.com/api/v1", some "k", "m"⟩
        (fun _ => .success "ok") "QUJD" "p" "image/png" 10 0 2
      = ⟨.error (.runtimeError "Failed to call GLM API after maximum retries"), 0, []⟩ :=
  call_glm_nonpositive_max_retries _ _ _ _ _ _ _ _
    (by decide) (by decide) (by decide) (by decide)

/-! ## C8: validate_image_format -/

/-- The output of validate_image_format is always in the allow-list. -/
theorem validate_image_format_mem (mime_type : String) :
    validate_image_format mime_type = "image/jpeg"
    ∨ validate_image_format mime_type = "image/jpg"
    ∨ validate_image_format mime_type = "image/png" := by
  unfold validate_image_format
  cases h : supported_formats.contains (pyLower mime_type) with
  | false =>
      have h' : pyLower mime_type ∉ supported_formats := by simpa using h
      simp [h']
  | true =>
      have h' : pyLower mime_type ∈ supported_formats := by simpa using h
      simp only [supported_formats] at h' ⊢
      simp only [List.mem_cons, List.not_mem_nil, or_false] at h'
      rcases h' with h' | h' | h' <;> simp [h']

/-- C8 (confirmed): validate_image_format is a total function of its input,
idempotent, maps every MIME type whose lower-casing is outside the allow-list
to "image/jpeg", and maps allow-listed inputs to their lower-cased form. -/
theorem validate_image_format_spec (mime_type : String) :
    validate_image_format (validate_image_format mime_type)
      = validate_image_format mime_type
    ∧ (supported_formats.contains (pyLower mime_type) = false →
        validate_image_format mime_type = "image/jpeg")
    ∧ (supported_formats.contains (pyLower mime_type) = true →
        validate_image_format mime_type = pyLower mime_type) := by
  refine ⟨?_, ?_, ?_⟩
  · rcases validate_image_format_mem mime_type with h | h | h <;> rw [h] <;> decide
  · intro h
    have h' : pyLower mime_type ∉ supported_formats := by simpa using h
    simp [validate_image_format, h']
  · intro h
    have h' : pyLower mime_type ∈ supported_formats := by simpa using h
    simp [validate_image_format, h']

/-- C8 witness: an allow-listed upper-cased input and a non-listed one. -/
theorem validate_image_format_spec_witness :
    validate_image_format "IMAGE/GIF" = "image/jpeg"
    ∧ validate_image_format "IMAGE/PNG" = pyLower "IMAGE/PNG" :=
  ⟨(validate_image_format_spec "IMAGE/GIF").2.1 (by decide),
   (validate_image_format_spec "IMAGE/PNG").2.2 (by decide)⟩

/-! ## C5: configuration is captured at import, not re-read per call -/

/-- C5 (counterexample): import the module under an environment lacking
GLM_API_KEY, then change the environment to provide a key; a call made after
the change still fails with the missing-key ValueError, while reading the
configuration at call time — what the claim asserts — would succeed.  The
later call therefore does not observe the new value. -/
theorem config_change_not_observed :
    ((fun v => if v = "GLM_API_KEY" then some "fresh-key" else none) "GLM_API_KEY"
        = some "fresh-key")
    ∧ (callAtTime (loadModule fun _ => none)
        (fun v => if v = "GLM_API_KEY" then some "fresh-key" else none)
        (fun _ => .success "ok") "QUJD" "p" "image/png" 3000 5 2).result
        = .error (.valueError "GLM_API_KEY environment variable not set")
    ∧ (call_glm_vision_api
        (readConfig fun v => if v = "GLM_API_KEY" then some "fresh-key" else none)
        (fun _ => .success "ok") "QUJD" "p" "image/png" 3000 5 2).result
        = .ok "ok" :=
  ⟨rfl, by decide, by decide⟩

/-- C5 (amended, confirmed): configuration is read from the environment once,
at module import, into the module globals; a later call uses those globals
only, so its behaviour is invariant under any change of the current
environment and equals that of the configuration captured at import. -/
theorem config_read_at_import_only
    (envImport envNow envNow' : String → Option String)
    (transport : Nat → AttemptOutcome) (image_base64 prompt mime_type : String)
    (max_tokens max_retries : Int) (retry_delay : ℚ) :
    callAtTime (loadModule envImport) envNow transport image_base64 prompt mime_type
        max_tokens max_retries retry_delay
      = callAtTime (loadModule envImport) envNow' transport image_base64 prompt
          mime_type max_tokens max_retries retry_delay
    ∧ callAtTime (loadModule envImport) envNow transport image_base64 prompt mime_type
        max_tokens max_retries retry_delay
      = call_glm_vision_api (readConfig envImport) transport image_base64 prompt
          mime_type max_tokens max_retries retry_delay :=
  ⟨rfl, rfl⟩

/-! ## C1: the orchestrator never raises and uniformly wraps failures -/

/-- C1 (confirmed): analyze_image_with_context is a total function of its
inputs (the try/except lets no exception escape); when normalization or the
client fails it returns exactly "Image analysis failed: " followed by the
failure message, and on success it returns the client's answer verbatim. -/
theorem analyze_uniform_result (st : ModuleState) (fs : FS)
    (transport : Nat → AttemptOutcome) (image_data user_context : String)
    (max_tokens : Int) (ctx : Bool) :
    (∀ e, prepare_image_for_api fs image_data = .error e →
        (analyze_image_with_context st fs transport image_data user_context
            max_tokens ctx).1
          = "Image analysis failed: " ++ e.msg)
    ∧ (∀ image_base64 mime_type,
        prepare_image_for_api fs image_data = .ok (image_base64, mime_type) →
          (∀ e, (call_glm_vision_api st.cfg transport image_base64
                (enhanced_prompt user_context) mime_type max_tokens 5 2).result
                  = .error e →
              (analyze_image_with_context st fs transport image_data user_context
                  max_tokens ctx).1
                = "Image analysis failed: " ++ e.msg)
          ∧ (∀ answer, (call_glm_vision_api st.cfg transport image_base64
                (enhanced_prompt user_context) mime_type max_tokens 5 2).result
                  = .ok answer →
              (analyze_image_with_context st fs transport image_data user_context
                  max_tokens ctx).1
                = answer)) := by
  constructor
  · intro e he
    simp [analyze_image_with_context, he]
  · intro image_base64 mime_type hp
    constructor
    · intro e he
      simp [analyze_image_with_context, hp, he]
    · intro answer ha
      simp [analyze_image_with_context, hp, ha]

/-- C1 witness: a data-URL input without a comma makes normalization raise
IndexError, and the tool returns the uniform failure string. -/
theorem analyze_uniform_result_witness :
    (analyze_image_with_context (loadModule fun _ => none)
        ⟨fun _ => false, fun _ => .fileNotFoundError⟩ (fun _ => .success "ok")
        "data:image" "what is this" 3000 true).1
      = "Image analysis failed: list index out of range" :=
  (analyze_uniform_result _ _ _ _ _ _ _).1 (.indexError "list index out of range")
    (by decide)

/-! ## C7: data-URL handling in prepare_image_for_api -/

/-- splitOnceL splits at the first occurrence of the separator. -/
theorem splitOnceL_append_sep (sep : Char) (xs ys : List Char) (hx : sep ∉ xs) :
    splitOnceL sep (xs ++ sep :: ys) = some (xs, ys) := by
  induction xs with
  | nil => simp [splitOnceL]
  | cons c cs ih =>
      simp only [List.cons_append, splitOnceL, List.append_eq]
      rw [if_neg (by rintro rfl; exact hx (List.mem_cons_self _ _)),
        ih (fun hm => hx (List.mem_cons_of_mem c hm))]
      rfl

/-- splitOnceL finds nothing when the separator does not occur. -/
theorem splitOnceL_not_mem (sep : Char) (xs : List Char) (hx : sep ∉ xs) :
    splitOnceL sep xs = none := by
  induction xs with
  | nil => simp [splitOnceL]
  | cons c cs ih =>
      simp only [splitOnceL]
      rw [if_neg (by rintro rfl; exact hx (List.mem_cons_self _ _)),
        ih (fun hm => hx (List.mem_cons_of_mem c hm))]
      rfl

/-- String-level corollary of splitOnceL_append_sep. -/
theorem splitOnce_of_data (sep : Char) (s : String) (xs ys : List Char)
    (h : s.data = xs ++ sep :: ys) (hx : sep ∉ xs) :
    splitOnce sep s = some (String.mk xs, String.mk ys) := by
  unfold splitOnce
  rw [h, splitOnceL_append_sep sep xs ys hx]
  rfl

/-- C7 (counterexample): the input "data:image" — not an existing path,
starting with "data:image", containing no comma — defeats the claimed
fallback: instead of returning the portion after the first comma (there is
none), the fallback indexing raises IndexError out of prepare_image_for_api. -/
theorem prepare_no_comma_raises :
    prepare_image_for_api ⟨fun _ => false, fun _ => .fileNotFoundError⟩ "data:image"
      = .error (.indexError "list index out of range") := by decide

/-- C7 (amended, confirmed): for every input that is not an existing path and
starts with "data:image": a well-formed data URL
"data:image/<fmt>;base64,<payload>" (fmt free of ':', ';' and ',') yields
exactly (<payload>, "image/<fmt>") unmodified; any such input containing a
comma yields some pair whose first component is the part after the first
comma; and an input containing no comma makes the except-branch fallback
itself raise IndexError rather than return. -/
theorem prepare_data_url_spec (fs : FS) (image_input : String)
    (hfs : fs.pathExists image_input = false)
    (hstart : pyStartswith image_input "data:image" = true) :
    (splitOnce ',' image_input = none →
      prepare_image_for_api fs image_input
        = .error (.indexError "list index out of range"))
    ∧ (∀ header data, splitOnce ',' image_input = some (header, data) →
        ∃ mime, prepare_image_for_api fs image_input = .ok (data, mime))
    ∧ (∀ fmt payload : String,
        (',' ∉ fmt.data ∧ ';' ∉ fmt.data ∧ ':' ∉ fmt.data) →
        image_input = "data:image/" ++ fmt ++ ";base64," ++ payload →
        prepare_image_for_api fs image_input = .ok (payload, "image/" ++ fmt)) := by
  refine ⟨?_, ?_, ?_⟩
  · intro hnone
    simp only [prepare_image_for_api, hfs, hstart, hnone, Bool.false_eq_true,
      if_false, if_true]
  · intro header data hsome
    cases hsemi : splitOnce ';' header with
    | none =>
        cases hcolon : splitOnce ':' header with
        | none =>
            refine ⟨"image/jpeg", ?_⟩
            simp only [prepare_image_for_api, hfs, hstart, hsome, hsemi, hcolon,
              Bool.false_eq_true, if_false, if_true]
        | some p =>
            refine ⟨p.2, ?_⟩
            simp only [prepare_image_for_api, hfs, hstart, hsome, hsemi, hcolon,
              Bool.false_eq_true, if_false, if_true]
    | some q =>
        cases hcolon : splitOnce ':' q.1 with
        | none =>
            refine ⟨"image/jpeg", ?_⟩
            simp only [prepare_image_for_api, hfs, hstart, hsome, hsemi, hcolon,
              Bool.false_eq_true, if_false, if_true]
        | some p =>
            refine ⟨p.2, ?_⟩
            simp only [prepare_image_for_api, hfs, hstart, hsome, hsemi, hcolon,
              Bool.false_eq_true, if_false, if_true]
  · rintro fmt payload ⟨hc, hs, hcol⟩ hinput
    have hsb : ";base64,".data = ";base64".data ++ [','] := by decide
    have hdata1 : image_input.data
        = ("data:image/".data ++ fmt.data ++ ";base64".data) ++ ',' :: payload.data := by
      rw [hinput]
      simp only [strData_append, hsb]
      simp [List.append_assoc]
    have hmem1 : ',' ∉ "data:image/".data ++ fmt.data ++ ";base64".data := by
      intro hm
      rcases List.mem_append.1 hm with hm | hm
      · rcases List.mem_append.1 hm with hm | hm
        · exact absurd hm (by decide)
        · exact hc hm
      · exact absurd hm (by decide)
    have hsplit1 := splitOnce_of_data ',' image_input _ _ hdata1 hmem1
    have hdata2 : (String.mk ("data:image/".data ++ fmt.data ++ ";base64".data)).data
        = ("data:image/".data ++ fmt.data) ++ ';' :: "base64".data := by
      show "data:image/".data ++ fmt.data ++ ";base64".data = _
      have h7 : ";base64".data = ';' :: "base64".data := by decide
      rw [h7]
    have hmem2 : ';' ∉ "data:image/".data ++ fmt.data := by
      intro hm
      rcases List.mem_append.1 hm with hm | hm
      · exact absurd hm (by decide)
      · exact hs hm
    have hsplit2 := splitOnce_of_data ';' _ _ _ hdata2 hmem2
    have hdata3 : (String.mk ("data:image/".data ++ fmt.data)).data
        = "data".data ++ ':' :: ("image/".data ++ fmt.data) := by
      show "data:image/".data ++ fmt.data = _
      have h8 : "data:image/".data = "data".data ++ ':' :: "image/".data := by decide
      rw [h8]
      simp [List.append_assoc]
    have hmem3 : ':' ∉ "data".data := by decide
    have hsplit3 := splitOnce_of_data ':' _ _ _ hdata3 hmem3
    simp only [prepare_image_for_api, hfs, hstart, hsplit1, hsplit2, hsplit3,
      Bool.false_eq_true, if_false, if_true]
    rfl

/-- C7 witness: the canonical well-formed PNG data URL. -/
theorem prepare_data_url_spec_witness :
    prepare_image_for_api ⟨fun _ => false, fun _ => .fileNotFoundError⟩
        "data:image/png;base64,ZmFrZV9pbWFnZV9kYXRh"
      = .ok ("ZmFrZV9pbWFnZV9kYXRh", "image/" ++ "png") :=
  (prepare_data_url_spec _ _ (by decide) (by decide)).2.2 "png" "ZmFrZV9pbWFnZV9kYXRh"
    ⟨by decide, by decide, by decide⟩ (by decide)

/-! ## Base64: the encoder round-trips through the strict decoder -/

/-- Alphabet facts, checked for each of the 64 sextet values. -/
theorem sextet_facts : ∀ v : Fin 64, isB64Char (sextetChar v.val) = true
    ∧ sextetChar v.val ≠ '=' ∧ sextetVal (sextetChar v.val) = some v.val := by decide

theorem isB64Char_sextetChar {v : Nat} (h : v < 64) : isB64Char (sextetChar v) = true :=
  (sextet_facts ⟨v, h⟩).1

theorem sextetChar_ne_pad {v : Nat} (h : v < 64) : sextetChar v ≠ '=' :=
  (sextet_facts ⟨v, h⟩).2.1

theorem sextetVal_sextetChar {v : Nat} (h : v < 64) : sextetVal (sextetChar v) = some v :=
  (sextet_facts ⟨v, h⟩).2.2

/-- The encoding is the sextet characters followed by the padding. -/
theorem encode_eq (bs : List Nat) :
    b64encodeL bs = (sextetsOf bs).map sextetChar ++ padOf bs := by
  induction bs using b64encodeL.induct with
  | case1 => rfl
  | case2 a => simp [b64encodeL, sextetsOf, padOf]
  | case3 a b => simp [b64encodeL, sextetsOf, padOf]
  | case4 a b c rest ih => simp [b64encodeL, sextetsOf, padOf, ih]

/-- The encoding has length divisible by four. -/
theorem encode_length (bs : List Nat) : (b64encodeL bs).length % 4 = 0 := by
  induction bs using b64encodeL.induct with
  | case1 => rfl
  | case2 a => simp [b64encodeL]
  | case3 a b => simp [b64encodeL]
  | case4 a b c rest ih => simp [b64encodeL]; omega

/-- All sextet values of a byte list are below 64. -/
theorem sextetsOf_lt (bs : List Nat) :
    (∀ b ∈ bs, b < 256) → ∀ v ∈ sextetsOf bs, v < 64 := by
  induction bs using sextetsOf.induct with
  | case1 => intro _ v hv; simp [sextetsOf] at hv
  | case2 a =>
      intro hb v hv
      have ha := hb a (by simp)
      simp [sextetsOf] at hv
      rcases hv with rfl | rfl <;> omega
  | case3 a b =>
      intro hb v hv
      have ha := hb a (by simp)
      have hbb := hb b (by simp)
      simp [sextetsOf] at hv
      rcases hv with rfl | rfl | rfl <;> omega
  | case4 a b c rest ih =>
      intro hb v hv
      have ha := hb a (by simp)
      have hbb := hb b (by simp)
      have hcc := hb c (by simp)
      simp only [sextetsOf, List.mem_cons] at hv
      rcases hv with rfl | rfl | rfl | rfl | hv
      · omega
      · omega
      · omega
      · omega
      · exact ih (fun x hx => hb x (by simp [hx])) v hv

/-- The padding is determined by the sextet count modulo four. -/
theorem padOf_facts (bs : List Nat) :
    ((sextetsOf bs).length % 4 = 0 ∧ padOf bs = [])
    ∨ ((sextetsOf bs).length % 4 = 2 ∧ padOf bs = ['=', '='])
    ∨ ((sextetsOf bs).length % 4 = 3 ∧ padOf bs = ['=']) := by
  induction bs using sextetsOf.induct with
  | case1 => left; exact ⟨rfl, rfl⟩
  | case2 a => right; left; exact ⟨rfl, rfl⟩
  | case3 a b => right; right; exact ⟨rfl, rfl⟩
  | case4 a b c rest ih =>
      have hlen : (sextetsOf (a :: b :: c :: rest)).length % 4
          = (sextetsOf rest).length % 4 := by
        simp [sextetsOf]
        omega
      have hpad : padOf (a :: b :: c :: rest) = padOf rest := rfl
      rcases ih with ⟨h1, h2⟩ | ⟨h1, h2⟩ | ⟨h1, h2⟩
      · left; exact ⟨by rw [hlen, h1], by rw [hpad, h2]⟩
      · right; left; exact ⟨by rw [hlen, h1], by rw [hpad, h2]⟩
      · right; right; exact ⟨by rw [hlen, h1], by rw [hpad, h2]⟩

/-- The padding is empty or starts with '='. -/
theorem padOf_head (bs : List Nat) : padOf bs = [] ∨ ∃ r', padOf bs = '=' :: r' := by
  rcases padOf_facts bs with ⟨_, h⟩ | ⟨_, h⟩ | ⟨_, h⟩
  · exact Or.inl h
  · exact Or.inr ⟨['='], h⟩
  · exact Or.inr ⟨[], h⟩

/-- A predicate true on all data characters and false on '=' takes exactly the
data characters from the encoding. -/
theorem takeWhile_encode (p : Char → Bool) (hpe : p '=' = false)
    (vals : List Nat) (hv : ∀ v ∈ vals, v < 64)
    (hp : ∀ v, v < 64 → p (sextetChar v) = true)
    (rest : List Char) (hrest : rest = [] ∨ ∃ r', rest = '=' :: r') :
    (vals.map sextetChar ++ rest).takeWhile p = vals.map sextetChar := by
  induction vals with
  | nil =>
      simp only [List.map_nil, List.nil_append]
      rcases hrest with rfl | ⟨r', rfl⟩
      · rfl
      · simp [List.takeWhile_cons, hpe]
  | cons v vs ih =>
      simp only [List.map_cons, List.cons_append, List.takeWhile_cons,
        hp v (hv v (by simp)), if_true]
      rw [ih (fun x hx => hv x (by simp [hx]))]

/-- The shape check accepts every encoder output. -/
theorem shape_encode (bs : List Nat) (hb : ∀ b ∈ bs, b < 256) :
    b64validShape (b64encodeL bs) = true := by
  have hlt := sextetsOf_lt bs hb
  have htw : (b64encodeL bs).takeWhile isB64Char = (sextetsOf bs).map sextetChar := by
    rw [encode_eq]
    exact takeWhile_encode isB64Char (by decide) _ hlt
      (fun v hv => isB64Char_sextetChar hv) _ (padOf_head bs)
  simp only [b64validShape]
  rw [htw, encode_eq, List.drop_left]
  rcases padOf_facts bs with ⟨_, h⟩ | ⟨_, h⟩ | ⟨_, h⟩ <;> rw [h] <;> decide

/-- Mapping the characters of sextet values back through sextetVal succeeds. -/
theorem sextetValsOf_map (vals : List Nat) (hv : ∀ v ∈ vals, v < 64) :
    sextetValsOf (vals.map sextetChar) = some vals := by
  induction vals with
  | nil => rfl
  | cons v vs ih =>
      simp [sextetValsOf, sextetVal_sextetChar (hv v (by simp)),
        ih (fun x hx => hv x (by simp [hx]))]

/-- Decoding the sextet list of a byte list recovers the bytes. -/
theorem decodeSextets_sextetsOf (bs : List Nat) :
    (∀ b ∈ bs, b < 256) → decodeSextets (sextetsOf bs) = some bs := by
  induction bs using sextetsOf.induct with
  | case1 => intro _; rfl
  | case2 a =>
      intro hb
      have ha := hb a (by simp)
      simp only [sextetsOf, decodeSextets, Option.some.injEq, List.cons.injEq,
        and_true]
      omega
  | case3 a b =>
      intro hb
      have ha := hb a (by simp)
      have hbb := hb b (by simp)
      simp only [sextetsOf, decodeSextets, Option.some.injEq, List.cons.injEq,
        and_true]
      refine ⟨by omega, by omega⟩
  | case4 a b c rest ih =>
      intro hb
      have ha := hb a (by simp)
      have hbb := hb b (by simp)
      have hcc := hb c (by simp)
      simp only [sextetsOf, decodeSextets,
        ih (fun x hx => hb x (by simp [hx])), Option.map_some', Option.some.injEq,
        List.cons.injEq]
      refine ⟨by omega, by omega, by omega, trivial⟩

/-- The strict decoder inverts the encoder on byte lists. -/
theorem b64decodeL_encodeL (bs : List Nat) (hb : ∀ b ∈ bs, b < 256) :
    b64decodeL (b64encodeL bs) = some bs := by
  have hlt := sextetsOf_lt bs hb
  have htw : (b64encodeL bs).takeWhile isB64Char = (sextetsOf bs).map sextetChar := by
    rw [encode_eq]
    exact takeWhile_encode isB64Char (by decide) _ hlt
      (fun v hv => isB64Char_sextetChar hv) _ (padOf_head bs)
  simp only [b64decodeL, shape_encode bs hb, encode_length bs, htw,
    sextetValsOf_map _ hlt, if_true, decodeSextets_sextetsOf bs hb]

/-- Padding a list whose length is a multiple of four changes nothing. -/
theorem padL_of_mod {t : List Char} (h : t.length % 4 = 0) : b64padL t = t := by
  simp [b64padL, h]

/-- Padding the stripped data characters restores the full encoding. -/
theorem padL_stripped (bs : List Nat) :
    b64padL ((sextetsOf bs).map sextetChar)
      = (sextetsOf bs).map sextetChar ++ padOf bs := by
  rcases padOf_facts bs with ⟨h1, h2⟩ | ⟨h1, h2⟩ | ⟨h1, h2⟩ <;>
    simp [b64padL, List.length_map, h1, h2, List.replicate]

/-- is_valid_base64 accepts the padded encoding of any byte list. -/
theorem valid_encode (bs : List Nat) (hb : ∀ b ∈ bs, b < 256) :
    is_valid_base64 (String.mk (b64encodeL bs)) = true := by
  unfold is_valid_base64
  show (b64decodeL (b64padL (b64encodeL bs))).isSome = true
  rw [padL_of_mod (encode_length bs), b64decodeL_encodeL bs hb]
  rfl

/-- is_valid_base64 accepts the encoding of any byte list with its trailing
'=' padding stripped. -/
theorem valid_encode_unpadded (bs : List Nat) (hb : ∀ b ∈ bs, b < 256) :
    is_valid_base64 (String.mk ((b64encodeL bs).takeWhile
        (fun c => decide (c ≠ '=')))) = true := by
  unfold is_valid_base64
  show (b64decodeL (b64padL ((b64encodeL bs).takeWhile
      (fun c => decide (c ≠ '='))))).isSome = true
  have htw : (b64encodeL bs).takeWhile (fun c => decide (c ≠ '='))
      = (sextetsOf bs).map sextetChar := by
    rw [encode_eq]
    exact takeWhile_encode (fun c => decide (c ≠ '=')) (by decide) _
      (sextetsOf_lt bs hb) (fun v hv => decide_eq_true (sextetChar_ne_pad hv)) _
      (padOf_head bs)
  rw [htw, padL_stripped bs, ← encode_eq bs, b64decodeL_encodeL bs hb]
  rfl

/-- Dropping the length of the takeWhile prefix is dropWhile. -/
theorem drop_takeWhile (p : Char → Bool) (t : List Char) :
    t.drop (t.takeWhile p).length = t.dropWhile p := by
  induction t with
  | nil => rfl
  | cons c cs ih =>
      by_cases h : p c
      · simp [List.takeWhile_cons, List.dropWhile_cons, h, ih]
      · simp [List.takeWhile_cons, List.dropWhile_cons, h]

/-- Every character of a string passing the shape check is an alphabet
character or the padding character. -/
theorem shape_chars {t : List Char} (h : b64validShape t = true) :
    ∀ c ∈ t, isB64Char c = true ∨ c = '=' := by
  intro c hc
  simp only [b64validShape, Bool.and_eq_true, List.all_eq_true,
    decide_eq_true_eq] at h
  obtain ⟨h1, _⟩ := h
  rw [drop_takeWhile isB64Char t] at h1
  have hsplit := @List.takeWhile_append_dropWhile _ isB64Char t
  rw [← hsplit] at hc
  rcases List.mem_append.1 hc with hm | hm
  · exact Or.inl (List.mem_takeWhile_imp hm)
  · exact Or.inr (h1 c hm)

/-- A character outside the alphabet and different from '=' falsifies
is_valid_base64. -/
theorem is_valid_false_of_bad_char (s : String) (c : Char)
    (hc : c ∈ s.data) (h1 : isB64Char c = false) (h2 : c ≠ '=') :
    is_valid_base64 s = false := by
  unfold is_valid_base64
  cases hdec : b64decodeL (b64padL s.data) with
  | none => rfl
  | some v =>
      exfalso
      have hshape : b64validShape (b64padL s.data) = true := by
        by_contra hns
        have hsf : b64validShape (b64padL s.data) = false := by
          cases hbv : b64validShape (b64padL s.data)
          · rfl
          · exact absurd hbv hns
        unfold b64decodeL at hdec
        rw [hsf] at hdec
        simp at hdec
      have hcmem : c ∈ b64padL s.data := by
        show c ∈ (if s.data.length % 4 = 0 then s.data
          else s.data ++ List.replicate (4 - s.data.length % 4) '=')
        split
        · exact hc
        · exact List.mem_append_left _ hc
      rcases shape_chars hshape c hcmem with hv | hv
      · rw [h1] at hv; exact Bool.false_ne_true hv
      · exact h2 hv

/-- C9 (confirmed): is_valid_base64 accepts every base64 encoding of a byte
sequence — with or without its trailing '=' padding — and rejects every
string containing a character outside the base64 alphabet (the 64 data
characters together with the padding character '='). -/
theorem is_valid_base64_spec :
    (∀ (bs : List Nat), (∀ b ∈ bs, b < 256) →
        is_valid_base64 (String.mk (b64encodeL bs)) = true
        ∧ is_valid_base64 (String.mk ((b64encodeL bs).takeWhile
            (fun c => decide (c ≠ '=')))) = true)
    ∧ (∀ (s : String) (c : Char), c ∈ s.data → isB64Char c = false → c ≠ '=' →
        is_valid_base64 s = false) :=
  ⟨fun bs hb => ⟨valid_encode bs hb, valid_encode_unpadded bs hb⟩,
   is_valid_false_of_bad_char⟩

/-- C9 witness: the encodings of [77, 97, 110] (padded) and [77, 97]
(unpadded), and the string "QUJ!" with its invalid character. -/
theorem is_valid_base64_spec_witness :
    is_valid_base64 (String.mk (b64encodeL [77, 97, 110])) = true
    ∧ is_valid_base64 (String.mk ((b64encodeL [77, 97]).takeWhile
        (fun c => decide (c ≠ '=')))) = true
    ∧ is_valid_base64 "QUJ!" = false :=
  ⟨(is_valid_base64_spec.1 [77, 97, 110] (by decide)).1,
   (is_valid_base64_spec.1 [77, 97] (by decide)).2,
   is_valid_base64_spec.2 "QUJ!" '!' (by decide) (by decide) (by decide)⟩

/-! ## C6: encoding an existing readable file -/

/-- C6 (counterexample): the readable file "pic.gif".  mimetypes infers
"image/gif"; it starts with "image/", so encode_file_to_base64 keeps it, and
the returned MIME type lies outside {image/jpeg, image/jpg, image/png}. -/
theorem prepare_file_gif_counterexample :
    prepare_image_for_api
        ⟨fun p => p == "pic.gif",
         fun p => if p == "pic.gif" then .content [1, 2, 3] else .fileNotFoundError⟩
        "pic.gif"
      = .ok ("AQID", "image/gif")
    ∧ "image/gif" ∉ supported_formats
    ∧ b64decode "AQID" = some [1, 2, 3] :=
  ⟨by decide, by decide, by decide⟩

/-- C6 (amended, confirmed): for every existing readable file, prepare (via
encode_file_to_base64) returns the base64 encoding of exactly the file's
bytes (the strict decoder recovers them), together with a MIME type that
always starts with "image/": the extension-inferred type whenever that is an
image type — not necessarily one of {image/jpeg, image/jpg, image/png} — and
"image/jpeg" when inference fails or yields a non-image type. -/
theorem prepare_file_spec (fs : FS) (file_path : String) (bytes : List Nat)
    (hex : fs.pathExists file_path = true)
    (hrd : fs.readFile file_path = .content bytes)
    (hb : ∀ b ∈ bytes, b < 256) :
    ∃ mime,
      prepare_image_for_api fs file_path = .ok (String.mk (b64encodeL bytes), mime)
      ∧ b64decode (String.mk (b64encodeL bytes)) = some bytes
      ∧ pyStartswith mime "image/" = true
      ∧ (∀ m, guess_type file_path = some m → pyStartswith m "image/" = true →
          mime = m)
      ∧ (guess_type file_path = none → mime = "image/jpeg")
      ∧ (∀ m, guess_type file_path = some m → pyStartswith m "image/" = false →
          mime = "image/jpeg") := by
  have hdec : b64decode (String.mk (b64encodeL bytes)) = some bytes := by
    show b64decodeL (b64encodeL bytes) = some bytes
    exact b64decodeL_encodeL bytes hb
  cases hg : guess_type file_path with
  | none =>
      refine ⟨"image/jpeg", ?_, hdec, by decide, ?_, fun _ => rfl, ?_⟩
      · simp only [prepare_image_for_api, hex, if_true, encode_file_to_base64, hg, hrd]
      · intro m hm _
        cases hm
      · intro m hm _
        cases hm
  | some m0 =>
      cases hsw : pyStartswith m0 "image/" with
      | true =>
          refine ⟨m0, ?_, hdec, hsw, ?_, ?_, ?_⟩
          · simp only [prepare_image_for_api, hex, if_true, encode_file_to_base64,
              hg, hsw, hrd]
          · intro m hm _
            cases hm
            rfl
          · intro hm
            cases hm
          · intro m hm hmf
            cases hm
            rw [hsw] at hmf
            cases hmf
      | false =>
          refine ⟨"image/jpeg", ?_, hdec, by decide, ?_, fun _ => rfl, fun _ _ _ => rfl⟩
          · simp only [prepare_image_for_api, hex, if_true, encode_file_to_base64,
              hg, hsw, hrd, Bool.false_eq_true, if_false]
          · intro m hm hmt
            cases hm
            rw [hsw] at hmt
            cases hmt

/-- C6 witness: a readable ".bin" file, whose extension yields no MIME guess. -/
theorem prepare_file_spec_witness :
    ∃ mime,
      prepare_image_for_api
          ⟨fun p => p == "report.bin",
           fun p => if p == "report.bin" then .content [0, 255] else .fileNotFoundError⟩
          "report.bin"
        = .ok (String.mk (b64encodeL [0, 255]), mime)
      ∧ b64decode (String.mk (b64encodeL [0, 255])) = some [0, 255]
      ∧ pyStartswith mime "image/" = true
      ∧ (∀ m, guess_type "report.bin" = some m → pyStartswith m "image/" = true →
          mime = m)
      ∧ (guess_type "report.bin" = none → mime = "image/jpeg")
      ∧ (∀ m, guess_type "report.bin" = some m → pyStartswith m "image/" = false →
          mime = "image/jpeg") :=
  prepare_file_spec _ _ _ (by decide) (by decide) (by decide)

end VisualMcp

